import Mathlib

/-!
# Verification of the TIS portfolio dashboard core

A shallow embedding of the pure computational core of the repository:

* `utils/data.py` — ticker utilities (`detect_asset_type`,
  `normalize_crypto_ticker`), FX-rate fetchers (`get_usd_krw_rate`,
  `get_jpy_krw_rate`), the portfolio valuation routine
  (`get_portfolio_summary`), and the local-JSON persistence layer
  (`add_asset`, `update_asset`, `remove_asset`, `add_scrap`);
* `utils/ai.py` — the Gemini model-fallback chain (`_should_fallback`,
  `_call_new_sdk` / `_call_old_sdk`, `get_gemini_analysis`);
* `utils/notion_db.py` — the Notion persistence variant
  (`add_asset_notion`, `add_scrap_notion`).

Python strings are Lean `String`s; `str.upper` / `str.lower` /
`str.endswith` / slicing / the `in` substring test are modelled on the
code-point list `String.data` (all data involved is ASCII, where
`Char.toUpper`/`Char.toLower` agree with Python).  Python floats are
modelled as `ℚ`, with `round(x, n)` modelled as round-half-to-even at
`n` decimal digits (Python's rounding mode).  Network effects
(yfinance, the Gemini SDKs, the Notion HTTP API) are passed in as
explicit function/value parameters, and exceptions are `Except`/`Option`
values: a Python function that catches all exceptions becomes a total
Lean function.
-/

/-- Python `s.upper()` on the code points of `s` (ASCII case map). -/
def toUpperStr (s : String) : String := String.mk (s.data.map Char.toUpper)

/-- Python `s.lower()` on the code points of `s` (ASCII case map). -/
def toLowerStr (s : String) : String := String.mk (s.data.map Char.toLower)

/-- Python slicing `s[:n]` (by code points). -/
def strTake (s : String) (n : ℕ) : String := String.mk (s.data.take n)

/-- Python `s.endswith(t)`. -/
def strEndsWith (s t : String) : Bool := t.data.isSuffixOf s.data

/-- Python `s.startswith(t)`. -/
def strStartsWith (s t : String) : Bool := t.data.isPrefixOf s.data

/-- Auxiliary: does the code-point list `h` contain `n` as a contiguous
sublist?  (`hasSub [] n` is `n.isEmpty`, matching Python's `"" in s`.) -/
def hasSub : List Char → List Char → Bool
  | [], n => n.isEmpty
  | c :: t, n => n.isPrefixOf (c :: t) || hasSub t n

/-- Python `n in h` for strings (substring containment). -/
def strContainsSub (h n : String) : Bool := hasSub h.data n.data

/-- Round-half-to-even to an integer, the tie-breaking rule of Python's
builtin `round`. -/
def roundHalfEvenZ (x : ℚ) : ℤ :=
  let f : ℤ := ⌊x⌋
  let frac : ℚ := x - f
  if frac < 1/2 then f
  else if 1/2 < frac then f + 1
  else if f % 2 = 0 then f else f + 1

/-- Python `round(x, n)`: round-half-to-even at `n` decimal digits. -/
def pyround (x : ℚ) (n : ℕ) : ℚ := (roundHalfEvenZ (x * 10 ^ n) : ℚ) / 10 ^ n

/-! ## Ticker utilities — `utils/data.py` lines 17–59 -/

/-- `CRYPTO_SUFFIXES` from `utils/data.py`. -/
def CRYPTO_SUFFIXES : List String := ["-USD", "-KRW", "-USDT", "-BTC"]

/-- `CRYPTO_KEYWORDS` from `utils/data.py`. -/
def CRYPTO_KEYWORDS : List String :=
  ["BTC", "ETH", "XRP", "SOL", "ADA", "DOGE", "DOT",
   "MATIC", "AVAX", "LINK", "BNB", "TRX", "SUI"]

/-- `detect_asset_type` from `utils/data.py` (lines 48–53). -/
def detect_asset_type (ticker : String) : String :=
  let t := toUpperStr ticker
  if strEndsWith t ".KS" || strEndsWith t ".KQ" then "한국주식"
  else if CRYPTO_SUFFIXES.any (fun s => strEndsWith t s) then "암호화폐"
  else if t ∈ CRYPTO_KEYWORDS then "암호화폐"
  else "미국주식"

/-- The condition of `normalize_crypto_ticker` (`utils/data.py` line 57):
`t` carries no crypto suffix and is a known bare crypto symbol. -/
def is_bare_crypto (t : String) : Bool :=
  !(CRYPTO_SUFFIXES.any (fun s => strEndsWith t s)) && t ∈ CRYPTO_KEYWORDS

/-- `normalize_crypto_ticker` from `utils/data.py` (lines 55–59). -/
def normalize_crypto_ticker (ticker : String) : String :=
  let t := toUpperStr ticker
  if is_bare_crypto t then t ++ "-USD" else ticker

/-! ## FX rates — `utils/data.py` lines 63–82

`get_usd_krw_rate` reads the `Close` column of a 2-day history of
`KRW=X`; any exception, and an empty history, fall through to the
hardcoded `1350.0`.  The history (or its absence) is passed in
explicitly: `none` models an exception raised inside the `try` block,
`some closes` models a fetched `Close` series. -/

/-- `get_usd_krw_rate` from `utils/data.py` (lines 63–69), parametric in
the fetched `Close` series of `KRW=X` (`none` = lookup raised). -/
def get_usd_krw_rate (krwClose : Option (List ℚ)) : ℚ :=
  match krwClose with
  | none => 1350
  | some closes =>
    match closes.getLast? with
    | some c => pyround c 2
    | none => 1350

/-- `get_jpy_krw_rate` from `utils/data.py` (lines 71–82), parametric in
the fetched `Close` series of `JPY=X` and `KRW=X`.  A zero last
`JPY=X` close would raise `ZeroDivisionError` in Python, caught by the
bare `except` — hence the explicit zero test selecting the fallback. -/
def get_jpy_krw_rate (jpyClose krwClose : Option (List ℚ)) : ℚ :=
  match jpyClose, krwClose with
  | some jc, some kc =>
    match jc.getLast?, kc.getLast? with
    | some jpy_per_usd, some krw_per_usd =>
      if jpy_per_usd = 0 then 900
      else pyround (krw_per_usd / jpy_per_usd * 100) 2
    | _, _ => 900
  | _, _ => 900

/-! ## Portfolio valuation — `utils/data.py` lines 122–155 -/

/-- The quote dictionary returned by `get_stock_info` (`utils/data.py`
lines 87–114), restricted to the fields `get_portfolio_summary` reads.
`valid = false` corresponds to the error dictionary. -/
structure StockInfo where
  name : String
  current_price : ℚ
  change_pct : ℚ
  currency : String
  sector : String
  valid : Bool
deriving DecidableEq, Repr

/-- An input asset dictionary: `get_portfolio_summary` reads its keys
with `.get` defaults (`quantity` → 0, `avg_price` → current price,
`asset_type` → `detect_asset_type`, `note` → `""`), so optional keys
are `Option`s. -/
structure AssetIn where
  ticker : String
  quantity : Option ℚ
  avg_price : Option ℚ
  asset_type : Option String
  note : Option String
deriving DecidableEq, Repr

/-- One row of the DataFrame built by `get_portfolio_summary`; field
names romanize the Korean column labels: `ticker` 티커, `name` 종목명,
`asset_type` 유형, `current_price` 현재가, `currency` 통화, `quantity`
수량, `avg_price` 평균단가, `current_value` 현재가치, `current_value_krw`
현재가치(KRW), `profit_loss` 손익, `profit_loss_krw` 손익(KRW),
`profit_loss_pct` 손익률(%), `sector` 섹터, `change_pct` 등락률(%),
`note` 메모. -/
structure Row where
  ticker : String
  name : String
  asset_type : String
  current_price : ℚ
  currency : String
  quantity : ℚ
  avg_price : ℚ
  current_value : ℚ
  current_value_krw : ℚ
  profit_loss : ℚ
  profit_loss_krw : ℚ
  profit_loss_pct : ℚ
  sector : String
  change_pct : ℚ
  note : String
deriving DecidableEq, Repr

/-- The loop body of `get_portfolio_summary` (`utils/data.py` lines
125–154): the row appended for one asset, or `none` when the quote is
invalid (`continue`). -/
def valuation_row (usd_krw : ℚ) (info : String → StockInfo)
    (asset : AssetIn) : Option Row :=
  let ticker := normalize_crypto_ticker asset.ticker
  let i := info ticker
  if !i.valid then none
  else
      let current_price := i.current_price
      let quantity := asset.quantity.getD 0
      let avg_price := asset.avg_price.getD current_price
      let currency := i.currency
      let current_value := current_price * quantity
      let cost_basis := avg_price * quantity
      let profit_loss := current_value - cost_basis
      let profit_loss_pct := if cost_basis ≠ 0 then profit_loss / cost_basis * 100 else 0
      let rate := if currency = "USD" then usd_krw else 1
      some {
        ticker := ticker
        name := strTake i.name 22
        asset_type := asset.asset_type.getD (detect_asset_type ticker)
        current_price := current_price
        currency := currency
        quantity := quantity
        avg_price := avg_price
        current_value := pyround current_value 2
        current_value_krw := pyround (current_value * rate) 0
        profit_loss := pyround profit_loss 2
        profit_loss_krw := pyround (profit_loss * rate) 0
        profit_loss_pct := pyround profit_loss_pct 2
        sector := i.sector
        change_pct := i.change_pct
        note := asset.note.getD "" }

/-- `get_portfolio_summary` from `utils/data.py` (lines 122–155),
parametric in the cached USD/KRW rate (`get_usd_krw_rate()`) and in the
quote fetcher (`get_stock_info`, a network call).  The Python loop
appends `valuation_row` results in order, skipping invalid quotes. -/
def get_portfolio_summary (usd_krw : ℚ) (info : String → StockInfo)
    (assets : List AssetIn) : List Row :=
  assets.filterMap (valuation_row usd_krw info)

/-! ## Gemini fallback chain — `utils/ai.py` -/

/-- `CANDIDATE_MODELS` from `utils/ai.py` (lines 16–22). -/
def CANDIDATE_MODELS : List String :=
  ["gemini-2.5-flash", "gemini-2.0-flash-lite", "gemini-2.0-flash",
   "gemini-1.5-pro", "gemini-pro"]

/-- `_FALLBACK_SIGNALS` from `utils/ai.py` (lines 25–29). -/
def FALLBACK_SIGNALS : List String :=
  ["not found", "404", "quota", "429", "resource_exhausted",
   "invalid argument", "model"]

/-- `_should_fallback` from `utils/ai.py` (lines 32–34). -/
def should_fallback (err : String) : Bool :=
  let e := toLowerStr err
  FALLBACK_SIGNALS.any (fun s => strContainsSub e s)

/-- The candidate-model loop shared by `_call_new_sdk` and
`_call_old_sdk` (`utils/ai.py` lines 45–62 and 71–85), parametric in the
per-model SDK call: `call m` is `.ok text` on success and `.error e`
when the SDK raises with message `e`.  `.error` in the result models the
function raising (either re-raising a non-fallback error or raising the
final `RuntimeError` after the list is exhausted). -/
def generate_with_fallback (call : String → Except String String) :
    List String → String → Except String String
  | [], last_err =>
    .error ("모든 모델 할당량 초과 또는 사용 불가.\n마지막 오류: " ++ last_err)
  | m :: rest, _ =>
    match call m with
    | .ok text => .ok text
    | .error e =>
      if should_fallback e then generate_with_fallback call rest e
      else .error e

/-- The static not-configured message of `get_gemini_analysis`
(`utils/ai.py` line 158). -/
def GEMINI_NOT_CONFIGURED_MSG : String :=
  "⚠️ Gemini API 키가 설정되지 않았습니다. 사이드바에서 입력해주세요."

/-- The quota-exhausted diagnostic of `get_gemini_analysis`
(`utils/ai.py` lines 186–197). -/
def GEMINI_QUOTA_MSG : String :=
  "⚠️ **Gemini 무료 할당량 초과**\n\n" ++
  "오늘 모든 모델의 무료 요청 한도를 소진했습니다.\n\n" ++
  "**해결 방법:**\n" ++
  "- ⏰ 내일(UTC 자정 이후) 다시 시도\n" ++
  "- 💳 결제 수단 등록 시 유료 플랜으로 한도 대폭 증가\n" ++
  "  → https://aistudio.google.com/app/apikey\n\n" ++
  "**무료 티어 일일 한도:**\n" ++
  "- gemini-1.5-flash-8b : 1,500 요청/일\n" ++
  "- gemini-1.5-flash    : 1,500 요청/일\n" ++
  "- gemini-2.0-flash    : 200 요청/일"

/-- The invalid-credential diagnostic of `get_gemini_analysis`
(`utils/ai.py` lines 199–203). -/
def GEMINI_INVALID_KEY_MSG : String :=
  "⚠️ **Gemini API 키가 유효하지 않습니다**\n\n" ++
  "https://aistudio.google.com/app/apikey 에서 키를 재발급 후\n" ++
  "사이드바 → API 설정에서 다시 입력해주세요."

/-- The generic connection-failure diagnostic of `get_gemini_analysis`
(`utils/ai.py` lines 204–208). -/
def GEMINI_GENERIC_FAIL_MSG (new_sdk_err old_sdk_err : String) : String :=
  "⚠️ Gemini 연결 실패\n\n**신규 SDK:** " ++ strTake new_sdk_err 300 ++
  "\n\n**구 SDK:** " ++ strTake old_sdk_err 300

/-- The error-classification tail of `get_gemini_analysis`
(`utils/ai.py` lines 183–208): both SDK attempts failed with the given
messages; classify the combined lowercased text. -/
def classify_failure (new_sdk_err old_sdk_err : String) : String :=
  let combined := toLowerStr (new_sdk_err ++ old_sdk_err)
  if strContainsSub combined "quota" || strContainsSub combined "429" ||
     strContainsSub combined "resource_exhausted" then
    GEMINI_QUOTA_MSG
  else if strContainsSub combined "api_key_invalid" ||
          strContainsSub combined "api key not valid" then
    GEMINI_INVALID_KEY_MSG
  else GEMINI_GENERIC_FAIL_MSG new_sdk_err old_sdk_err

/-- `get_gemini_analysis` from `utils/ai.py` (lines 155–208), parametric
in the stripped `GEMINI_API_KEY` value and in the two SDKs: `none`
models an `ImportError` (SDK not installed), `some call` an installed
SDK with per-model behaviour `call`.  Prompt building is pure string
assembly and is absorbed into the calls. -/
def get_gemini_analysis (api_key : String)
    (new_sdk old_sdk : Option (String → Except String String)) : String :=
  if api_key = "" || strStartsWith api_key "your_" then
    GEMINI_NOT_CONFIGURED_MSG
  else
    let newRes : Except String String :=
      match new_sdk with
      | some call => generate_with_fallback call CANDIDATE_MODELS ""
      | none => .error "google-genai 미설치"
    match newRes with
    | .ok t => t
    | .error new_sdk_err =>
      let oldRes : Except String String :=
        match old_sdk with
        | some call => generate_with_fallback call CANDIDATE_MODELS ""
        | none => .error "google-generativeai 미설치"
      match oldRes with
      | .ok t => t
      | .error old_sdk_err => classify_failure new_sdk_err old_sdk_err

/-! ## Local-JSON persistence — `utils/data.py` lines 244–292

The JSON store `{"assets": [...], "scraps": [...]}` is the state `DB`;
`load_portfolio`/`save_portfolio` become explicit state passing, and
`datetime.now().isoformat()` / the md5 scrap id are passed in as opaque
strings. -/

/-- A stored asset record as written by `add_asset`; `updated_at` is
absent until `update_asset` touches the record. -/
structure Asset where
  ticker : String
  name : String
  quantity : ℚ
  avg_price : ℚ
  asset_type : String
  note : String
  added_at : String
  updated_at : Option String
deriving DecidableEq, Repr

/-- A stored scrap record as written by `add_scrap`. -/
structure Scrap where
  id : String
  title : String
  link : String
  summary : String
  ticker : String
  category : String
  source : String
  scraped_at : String
deriving DecidableEq, Repr

/-- The local-JSON store (`portfolio_db.json`). -/
structure DB where
  assets : List Asset
  scraps : List Scrap
deriving DecidableEq, Repr

/-- `add_asset` from `utils/data.py` (lines 255–267); `now` models
`datetime.now().isoformat()`.  Returns the new store and the
`(ok, message)` pair. -/
def add_asset (db : DB) (ticker name : String) (quantity avg_price : ℚ)
    (asset_type note now : String) : DB × Bool × String :=
  let t := toUpperStr (normalize_crypto_ticker ticker)
  if db.assets.any (fun a => toUpperStr a.ticker = t) then
    (db, false, "⚠️ " ++ t ++ " 이미 존재합니다.")
  else
    ({ db with assets := db.assets ++
        [{ ticker := t, name := name, quantity := quantity,
           avg_price := avg_price, asset_type := asset_type, note := note,
           added_at := now, updated_at := none }] },
     true, "✅ " ++ t ++ " 추가 완료!")

/-- `update_asset` from `utils/data.py` (lines 269–275): every asset
whose ticker matches case-insensitively gets the new quantity/average
cost and an `updated_at` stamp; the Python function returns `None`. -/
def update_asset (db : DB) (ticker : String) (new_qty new_avg : ℚ)
    (now : String) : DB :=
  { db with assets := db.assets.map (fun a =>
      if toUpperStr a.ticker = toUpperStr ticker then
        { a with quantity := new_qty, avg_price := new_avg,
                 updated_at := some now }
      else a) }

/-- `remove_asset` from `utils/data.py` (lines 277–280). -/
def remove_asset (db : DB) (ticker : String) : DB :=
  { db with assets :=
      db.assets.filter (fun a => toUpperStr a.ticker ≠ toUpperStr ticker) }

/-- `add_scrap` from `utils/data.py` (lines 282–292); `scrap_id` models
the md5-derived id and `now` the timestamp.  Returns the new store and
the boolean result (`False` = rejected as a duplicate link). -/
def add_scrap (db : DB) (title link summary ticker category src : String)
    (scrap_id now : String) : DB × Bool :=
  if link ≠ "" && db.scraps.any (fun s => s.link = link) then (db, false)
  else
    ({ db with scraps := db.scraps ++
        [{ id := scrap_id, title := title, link := link, summary := summary,
           ticker := ticker, category := category, source := src,
           scraped_at := now }] },
     true)

/-! ## Notion persistence variant — `utils/notion_db.py`

The HTTP layer is a parameter: `resp : Except String Unit` is `.ok ()`
for an HTTP 200 and `.error m` for a non-200 response or a raised
exception, with `m` the message the source would format.  Each model
returns `(ok, message, writeIssued)` where `writeIssued` records whether
the POST to the Notion API was reached. -/

/-- `add_asset_notion` from `utils/notion_db.py` (lines 121–152):
`configured` is `_is_configured("portfolio")`, `existing` the tickers
returned by `load_assets()`, `resp` the outcome of the page-create
POST. -/
def add_asset_notion (configured : Bool) (existing : List String)
    (resp : Except String Unit) (ticker : String) : Bool × String × Bool :=
  if !configured then
    (false, "Notion 포트폴리오 DB가 설정되지 않았습니다.", false)
  else if existing.any (fun a => toUpperStr a = toUpperStr ticker) then
    (false, "⚠️ " ++ ticker ++ " 이미 존재합니다.", false)
  else
    match resp with
    | .ok _ => (true, "✅ " ++ ticker ++ " 추가 완료!", true)
    | .error m => (false, m, true)

/-- `add_scrap_notion` from `utils/notion_db.py` (lines 242–268):
`configured` is `_is_configured("scrap")`, `resp` the outcome of the
page-create POST.  The source consults no existing records — there is no
dedup input at all. -/
def add_scrap_notion (configured : Bool) (resp : Except String Unit)
    (title link summary ticker category src : String) :
    Bool × String × Bool :=
  if !configured then
    (false, "Notion 스크랩 DB가 설정되지 않았습니다.", false)
  else
    match resp with
    | .ok _ => (true, "✅ Notion 저장 완료!", true)
    | .error m => (false, m, true)

/-! ## Concrete scenario data used by the theorems below -/

/-- The holding of the AAPL valuation scenario:
`{ticker:"AAPL", quantity:10, averageCost:150}`. -/
def aaplAsset : AssetIn :=
  { ticker := "AAPL", quantity := some 10, avg_price := some 150,
    asset_type := some "미국주식", note := some "" }

/-- The quote of the AAPL valuation scenario:
`{price:165, currency:"USD", changePct:1.2}`. -/
def aaplQuote : StockInfo :=
  { name := "Apple Inc.", current_price := 165, change_pct := 6/5,
    currency := "USD", sector := "Technology", valid := true }

/-- A quote fetcher knowing only AAPL; every other ticker yields an
invalid snapshot (the error dictionary of `get_stock_info`). -/
def scenarioInfo : String → StockInfo := fun t =>
  if t = "AAPL" then aaplQuote
  else { name := t, current_price := 0, change_pct := 0, currency := "",
         sector := "", valid := false }

/-- The fallback classifier written exactly from the claim / spec words
(triggers: "model not found" / quota / rate-limit — `404`, `"not found"`,
`429`, `"quota"`, `"resource exhausted"`), for comparison against the
source's `should_fallback`. -/
def spec_fallback_trigger (err : String) : Bool :=
  let e := toLowerStr err
  ["not found", "404", "quota", "429", "resource exhausted"].any
    (fun s => strContainsSub e s)

/-- A two-model SDK behaviour: `m1` raises "invalid argument", `m2`
succeeds. -/
def c5Call : String → Except String String := fun m =>
  if m = "m1" then .error "invalid argument" else .ok "m2 text"

/-- A two-model SDK behaviour: `m1` raises "quota exceeded", `m2`
succeeds. -/
def c5QuotaCall : String → Except String String := fun m =>
  if m = "m1" then .error "quota exceeded" else .ok "m2 text"

/-- An SDK behaviour raising the same error for every model. -/
def constCall (e : String) : String → Except String String := fun _ => .error e

/-- A store holding one TSLA asset (duplicate-add scenario). -/
def dbTSLA : DB :=
  { assets := [{ ticker := "TSLA", name := "Tesla", quantity := 1,
                 avg_price := 200, asset_type := "미국주식", note := "",
                 added_at := "2025-01-01", updated_at := none }],
    scraps := [] }

/-- A store holding one scrap whose `link` is the empty string. -/
def dbEmptyLink : DB :=
  { assets := [],
    scraps := [{ id := "aaaaaaaaaaaa", title := "old", link := "",
                 summary := "", ticker := "AAPL", category := "뉴스",
                 source := "", scraped_at := "2025-01-01T00:00:00" }] }

/-- A store holding one scrap with a non-empty `link`. -/
def dbLinked : DB :=
  { assets := [],
    scraps := [{ id := "bbbbbbbbbbbb", title := "old", link := "https://x.com/1",
                 summary := "", ticker := "AAPL", category := "뉴스",
                 source := "", scraped_at := "2025-01-01T00:00:00" }] }

/-- The canonical-ticker store invariant of claim C10: every stored
ticker is fixed by upper-casing and by crypto normalization. -/
def TickersCanonical (db : DB) : Prop :=
  ∀ a ∈ db.assets, toUpperStr a.ticker = a.ticker ∧
    normalize_crypto_ticker a.ticker = a.ticker

/-! ## Helper lemmas -/

/-- `Char.ofNat` followed by `Char.toNat` is the identity on valid
scalar values. -/
theorem char_toNat_ofNat (n : ℕ) (h : n.isValidChar) :
    (Char.ofNat n).toNat = n := by
  simp only [Char.ofNat]
  rw [dif_pos h]
  rfl

/-- `Char.toUpper` is idempotent. -/
theorem char_toUpper_idem (c : Char) : c.toUpper.toUpper = c.toUpper := by
  by_cases h : c.toNat ≥ 97 ∧ c.toNat ≤ 122
  · have h1 : c.toUpper = Char.ofNat (c.toNat - 32) := by
      simp only [Char.toUpper]
      rw [if_pos h]
    have hv : (c.toNat - 32).isValidChar := Or.inl (by omega)
    have ht : (Char.ofNat (c.toNat - 32)).toNat = c.toNat - 32 :=
      char_toNat_ofNat _ hv
    rw [h1]
    simp only [Char.toUpper]
    rw [if_neg (by omega)]
  · simp only [Char.toUpper]
    rw [if_neg h, if_neg h]

/-- Python's `.upper()` is idempotent. -/
theorem toUpperStr_idem (s : String) :
    toUpperStr (toUpperStr s) = toUpperStr s := by
  simp only [toUpperStr, List.map_map]
  exact congrArg String.mk
    (List.map_congr_left (fun c _ => char_toUpper_idem c))

/-- Unfolding `normalize_crypto_ticker` when the condition holds. -/
theorem normalize_eq_of_bare (x : String)
    (h : is_bare_crypto (toUpperStr x) = true) :
    normalize_crypto_ticker x = toUpperStr x ++ "-USD" := by
  simp only [normalize_crypto_ticker]
  rw [if_pos h]

/-- Unfolding `normalize_crypto_ticker` when the condition fails. -/
theorem normalize_eq_of_not_bare (x : String)
    (h : is_bare_crypto (toUpperStr x) = false) :
    normalize_crypto_ticker x = x := by
  simp only [normalize_crypto_ticker]
  rw [if_neg (by simp [h])]

/-- A bare-crypto string is one of the thirteen keywords. -/
theorem bare_crypto_mem (t : String) (h : is_bare_crypto t = true) :
    t ∈ CRYPTO_KEYWORDS := by
  simp only [is_bare_crypto, Bool.and_eq_true, decide_eq_true_eq] at h
  exact h.2

/-- For each crypto keyword `t`, the string `t ++ "-USD"` is a fixed
point of both `normalize_crypto_ticker` and `.upper()`. -/
theorem normalize_keyword_append (t : String) (h : t ∈ CRYPTO_KEYWORDS) :
    normalize_crypto_ticker (t ++ "-USD") = t ++ "-USD" ∧
    toUpperStr (t ++ "-USD") = t ++ "-USD" := by
  simp only [CRYPTO_KEYWORDS, List.mem_cons, List.not_mem_nil, or_false] at h
  rcases h with h|h|h|h|h|h|h|h|h|h|h|h|h <;> subst h <;>
    exact ⟨by decide, by decide⟩

/-- The string `normalize_crypto_ticker x |>.upper()` appended by
`add_asset` is fixed by both `.upper()` and normalization. -/
theorem normalize_upper_canonical (x : String) :
    toUpperStr (toUpperStr (normalize_crypto_ticker x)) =
      toUpperStr (normalize_crypto_ticker x) ∧
    normalize_crypto_ticker (toUpperStr (normalize_crypto_ticker x)) =
      toUpperStr (normalize_crypto_ticker x) := by
  refine ⟨toUpperStr_idem _, ?_⟩
  cases hb : is_bare_crypto (toUpperStr x) with
  | false =>
    rw [normalize_eq_of_not_bare x hb]
    exact normalize_eq_of_not_bare (toUpperStr x)
      (by rw [toUpperStr_idem]; exact hb)
  | true =>
    rw [normalize_eq_of_bare x hb]
    have hm := bare_crypto_mem _ hb
    rw [(normalize_keyword_append _ hm).2]
    exact (normalize_keyword_append _ hm).1

/-- `valuation_row` yields a row exactly when the quote is valid. -/
theorem valuation_row_isSome (u : ℚ) (info : String → StockInfo)
    (a : AssetIn) :
    (valuation_row u info a).isSome =
      (info (normalize_crypto_ticker a.ticker)).valid := by
  cases h : (info (normalize_crypto_ticker a.ticker)).valid <;>
    simp [valuation_row, h]

/-- `valuation_row` is `none` exactly on invalid quotes. -/
theorem valuation_row_none_iff (u : ℚ) (info : String → StockInfo)
    (a : AssetIn) :
    valuation_row u info a = none ↔
      (info (normalize_crypto_ticker a.ticker)).valid = false := by
  cases h : (info (normalize_crypto_ticker a.ticker)).valid <;>
    simp [valuation_row, h]

/-- Claim C1: `get_portfolio_summary` keeps exactly the holdings whose
quote fetch is valid — a holding yields a row iff its quote has
`valid = true`, the output equals the output on the valid-quote
sublist (so invalid holdings are absent, with no error or zero row),
its length is the number of valid-quote holdings, and the empty input
yields the empty output. -/
theorem C1_invalid_quotes_dropped :
    (∀ (u : ℚ) (info : String → StockInfo),
      get_portfolio_summary u info [] = []) ∧
    (∀ (u : ℚ) (info : String → StockInfo) (a : AssetIn),
      (valuation_row u info a).isSome =
        (info (normalize_crypto_ticker a.ticker)).valid) ∧
    (∀ (u : ℚ) (info : String → StockInfo) (assets : List AssetIn),
      get_portfolio_summary u info assets =
        get_portfolio_summary u info (assets.filter
          (fun a => (info (normalize_crypto_ticker a.ticker)).valid))) ∧
    (∀ (u : ℚ) (info : String → StockInfo) (assets : List AssetIn),
      (get_portfolio_summary u info assets).length =
        (assets.filter
          (fun a => (info (normalize_crypto_ticker a.ticker)).valid)).length) := by
  refine ⟨fun u info => rfl, valuation_row_isSome, ?_, ?_⟩
  · intro u info assets
    induction assets with
    | nil => rfl
    | cons a rest ih =>
      by_cases h : (info (normalize_crypto_ticker a.ticker)).valid = true
      · cases hv : valuation_row u info a with
        | none =>
          rw [valuation_row_none_iff] at hv
          rw [hv] at h
          cases h
        | some r =>
          simp only [get_portfolio_summary, List.filterMap_cons,
            List.filter_cons, h, if_true, hv] at ih ⊢
          rw [ih]
      · have hv : valuation_row u info a = none := by
          rw [valuation_row_none_iff]
          cases hvalid : (info (normalize_crypto_ticker a.ticker)).valid
          · rfl
          · exact absurd hvalid h
        simp only [get_portfolio_summary, List.filterMap_cons,
          List.filter_cons, hv] at ih ⊢
        rw [if_neg (by simpa using h)]
        exact ih
  · intro u info assets
    induction assets with
    | nil => rfl
    | cons a rest ih =>
      by_cases h : (info (normalize_crypto_ticker a.ticker)).valid = true
      · cases hv : valuation_row u info a with
        | none =>
          rw [valuation_row_none_iff] at hv
          rw [hv] at h
          cases h
        | some r =>
          simp only [get_portfolio_summary, List.filterMap_cons,
            List.filter_cons, h, if_true, hv, List.length_cons] at ih ⊢
          rw [ih]
      · have hv : valuation_row u info a = none := by
          rw [valuation_row_none_iff]
          cases hvalid : (info (normalize_crypto_ticker a.ticker)).valid
          · rfl
          · exact absurd hvalid h
        simp only [get_portfolio_summary, List.filterMap_cons,
          List.filter_cons, hv] at ih ⊢
        rw [if_neg (by simpa using h)]
        exact ih

/-- Claim C4: `normalize_crypto_ticker` is idempotent on every input
string, in particular on `"BTC"`, `"BTC-USD"` and `"005930.KS"`. -/
theorem C4_normalize_idempotent :
    (∀ x : String,
      normalize_crypto_ticker (normalize_crypto_ticker x) =
        normalize_crypto_ticker x) ∧
    normalize_crypto_ticker "BTC" = "BTC-USD" ∧
    normalize_crypto_ticker (normalize_crypto_ticker "BTC") =
      normalize_crypto_ticker "BTC" ∧
    normalize_crypto_ticker (normalize_crypto_ticker "BTC-USD") =
      normalize_crypto_ticker "BTC-USD" ∧
    normalize_crypto_ticker (normalize_crypto_ticker "005930.KS") =
      normalize_crypto_ticker "005930.KS" := by
  have hidem : ∀ x : String,
      normalize_crypto_ticker (normalize_crypto_ticker x) =
        normalize_crypto_ticker x := by
    intro x
    cases hb : is_bare_crypto (toUpperStr x) with
    | false => rw [normalize_eq_of_not_bare x hb, normalize_eq_of_not_bare x hb]
    | true =>
      rw [normalize_eq_of_bare x hb]
      exact (normalize_keyword_append _ (bare_crypto_mem _ hb)).1
  exact ⟨hidem, by decide, hidem _, hidem _, hidem _⟩

/-- Claim C7: the FX-rate operations are total (the embedding returns a
rational for every input) and degrade to the hardcoded constants on any
lookup failure (`none`) or empty history: `get_usd_krw_rate` yields
`1350` and `get_jpy_krw_rate` yields `900` (KRW per 100 JPY). -/
theorem C7_fx_hardcoded_fallback :
    (∀ h : Option (List ℚ), h = none ∨ h = some [] →
      get_usd_krw_rate h = 1350) ∧
    (∀ hj hk : Option (List ℚ),
      hj = none ∨ hj = some [] ∨ hk = none ∨ hk = some [] →
      get_jpy_krw_rate hj hk = 900) := by
  constructor
  · rintro h (rfl | rfl) <;> rfl
  · rintro hj hk (rfl | rfl | rfl | rfl)
    · rfl
    · cases hk with
      | none => rfl
      | some kc => rfl
    · cases hj with
      | none => rfl
      | some jc => cases hjl : jc.getLast? <;> simp [get_jpy_krw_rate, hjl]
    · cases hj with
      | none => rfl
      | some jc => cases hjl : jc.getLast? <;> simp [get_jpy_krw_rate, hjl]

/-- Witness for C7: concrete failure inputs hit the constants. -/
theorem C7_witness :
    get_usd_krw_rate none = 1350 ∧
    get_jpy_krw_rate (some []) (some [1850]) = 900 :=
  ⟨C7_fx_hardcoded_fallback.1 none (Or.inl rfl),
   C7_fx_hardcoded_fallback.2 (some []) (some [1850]) (Or.inr (Or.inl rfl))⟩

/-- Rounding zero at any precision yields zero. -/
theorem pyround_zero (n : ℕ) : pyround 0 n = 0 := by
  norm_num [pyround, roundHalfEvenZ]

/-- The valuation arithmetic of `get_portfolio_summary` for one holding
with a valid quote: the produced row carries the quantity and average
cost read from the asset, `currentValue = price * quantity` (rounded to
2 decimals), `costBasis = averageCost * quantity`,
`profitLoss = currentValue - costBasis`, the guarded
`profitLossPct`, and KRW conversions using the USD rate exactly when the
quote currency is `"USD"` and rate 1 otherwise. -/
theorem valuation_row_formula (u : ℚ) (info : String → StockInfo)
    (asset : AssetIn)
    (hv : (info (normalize_crypto_ticker asset.ticker)).valid = true) :
    ∃ r : Row, get_portfolio_summary u info [asset] = [r] ∧
      r.quantity = asset.quantity.getD 0 ∧
      r.avg_price = asset.avg_price.getD
        (info (normalize_crypto_ticker asset.ticker)).current_price ∧
      r.current_value = pyround
        ((info (normalize_crypto_ticker asset.ticker)).current_price *
          r.quantity) 2 ∧
      r.profit_loss = pyround
        ((info (normalize_crypto_ticker asset.ticker)).current_price *
            r.quantity - r.avg_price * r.quantity) 2 ∧
      r.profit_loss_pct = pyround
        (if r.avg_price * r.quantity ≠ 0 then
          ((info (normalize_crypto_ticker asset.ticker)).current_price *
              r.quantity - r.avg_price * r.quantity) /
            (r.avg_price * r.quantity) * 100
         else 0) 2 ∧
      r.current_value_krw = pyround
        ((info (normalize_crypto_ticker asset.ticker)).current_price *
            r.quantity *
          (if (info (normalize_crypto_ticker asset.ticker)).currency = "USD"
           then u else 1)) 0 ∧
      r.profit_loss_krw = pyround
        (((info (normalize_crypto_ticker asset.ticker)).current_price *
              r.quantity - r.avg_price * r.quantity) *
          (if (info (normalize_crypto_ticker asset.ticker)).currency = "USD"
           then u else 1)) 0 := by
  refine
  ⟨{
        ticker := normalize_crypto_ticker asset.ticker
        name := strTake (info (normalize_crypto_ticker asset.ticker)).name 22
        asset_type := asset.asset_type.getD
          (detect_asset_type (normalize_crypto_ticker asset.ticker))
        current_price := (info (normalize_crypto_ticker asset.ticker)).current_price
        currency := (info (normalize_crypto_ticker asset.ticker)).currency
        quantity := asset.quantity.getD 0
        avg_price := asset.avg_price.getD
          (info (normalize_crypto_ticker asset.ticker)).current_price
        current_value := pyround
          ((info (normalize_crypto_ticker asset.ticker)).current_price *
            asset.quantity.getD 0) 2
        current_value_krw := pyround
          ((info (normalize_crypto_ticker asset.ticker)).current_price *
              asset.quantity.getD 0 *
            (if (info (normalize_crypto_ticker asset.ticker)).currency = "USD"
             then u else 1)) 0
        profit_loss := pyround
          ((info (normalize_crypto_ticker asset.ticker)).current_price *
              asset.quantity.getD 0 -
            asset.avg_price.getD
                (info (normalize_crypto_ticker asset.ticker)).current_price *
              asset.quantity.getD 0) 2
        profit_loss_krw := pyround
          (((info (normalize_crypto_ticker asset.ticker)).current_price *
                asset.quantity.getD 0 -
              asset.avg_price.getD
                  (info (normalize_crypto_ticker asset.ticker)).current_price *
                asset.quantity.getD 0) *
            (if (info (normalize_crypto_ticker asset.ticker)).currency = "USD"
             then u else 1)) 0
        profit_loss_pct := pyround
          (if asset.avg_price.getD
                (info (normalize_crypto_ticker asset.ticker)).current_price *
              asset.quantity.getD 0 ≠ 0 then
            ((info (normalize_crypto_ticker asset.ticker)).current_price *
                asset.quantity.getD 0 -
              asset.avg_price.getD
                  (info (normalize_crypto_ticker asset.ticker)).current_price *
                asset.quantity.getD 0) /
              (asset.avg_price.getD
                  (info (normalize_crypto_ticker asset.ticker)).current_price *
                asset.quantity.getD 0) * 100
           else 0) 2
        sector := (info (normalize_crypto_ticker asset.ticker)).sector
        change_pct := (info (normalize_crypto_ticker asset.ticker)).change_pct
        note := asset.note.getD "" },
      ?_, rfl, rfl, rfl, rfl, rfl, rfl, rfl⟩
  simp [get_portfolio_summary, valuation_row, hv]

/-- Claim C2: for every holding processed by `get_portfolio_summary`,
`currentValue = price * quantity`, `costBasis = averageCost * quantity`,
`profitLoss = currentValue - costBasis`, and the KRW-converted values use
the cached USD/KRW rate iff the quote currency is `"USD"` (rate 1
otherwise); concretely, holding `(AAPL, 10, 150)` with quote
`(165, USD)` and USD/KRW = 1350 yields `currentValue = 1650`,
`profitLoss = 150`, `profitLossPct = 10`,
`currentValueKRW = 2227500`. -/
theorem C2_valuation_arithmetic :
    (∀ (u : ℚ) (info : String → StockInfo) (asset : AssetIn),
      (info (normalize_crypto_ticker asset.ticker)).valid = true →
      ∃ r : Row, get_portfolio_summary u info [asset] = [r] ∧
        r.quantity = asset.quantity.getD 0 ∧
        r.avg_price = asset.avg_price.getD
          (info (normalize_crypto_ticker asset.ticker)).current_price ∧
        r.current_value = pyround
          ((info (normalize_crypto_ticker asset.ticker)).current_price *
            r.quantity) 2 ∧
        r.profit_loss = pyround
          ((info (normalize_crypto_ticker asset.ticker)).current_price *
              r.quantity - r.avg_price * r.quantity) 2 ∧
        r.profit_loss_pct = pyround
          (if r.avg_price * r.quantity ≠ 0 then
            ((info (normalize_crypto_ticker asset.ticker)).current_price *
                r.quantity - r.avg_price * r.quantity) /
              (r.avg_price * r.quantity) * 100
           else 0) 2 ∧
        r.current_value_krw = pyround
          ((info (normalize_crypto_ticker asset.ticker)).current_price *
              r.quantity *
            (if (info (normalize_crypto_ticker asset.ticker)).currency = "USD"
             then u else 1)) 0 ∧
        r.profit_loss_krw = pyround
          (((info (normalize_crypto_ticker asset.ticker)).current_price *
                r.quantity - r.avg_price * r.quantity) *
            (if (info (normalize_crypto_ticker asset.ticker)).currency = "USD"
             then u else 1)) 0) ∧
    get_portfolio_summary 1350 scenarioInfo [aaplAsset] =
      [{ ticker := "AAPL", name := "Apple Inc.", asset_type := "미국주식",
         current_price := 165, currency := "USD", quantity := 10,
         avg_price := 150, current_value := 1650,
         current_value_krw := 2227500, profit_loss := 150,
         profit_loss_krw := 202500, profit_loss_pct := 10,
         sector := "Technology", change_pct := 6/5, note := "" }] := by
  constructor
  · exact valuation_row_formula
  · have hnorm : normalize_crypto_ticker "AAPL" = "AAPL" := by decide
    have hname : strTake "Apple Inc." 22 = "Apple Inc." := by decide
    simp only [get_portfolio_summary, List.filterMap_cons, List.filterMap_nil,
      valuation_row, aaplAsset, hnorm]
    norm_num [scenarioInfo, aaplQuote, hname, pyround, roundHalfEvenZ]

/-- Claim C3: a holding with quantity 0 (the `.get` default included)
produces a row with `currentValue = 0` and `profitLossPct = 0` for every
quoted price — the zero cost-basis branch of the division guard is
taken, no division happens. -/
theorem C3_zero_quantity_guard (u : ℚ) (info : String → StockInfo)
    (asset : AssetIn) (hq : asset.quantity.getD 0 = 0)
    (hv : (info (normalize_crypto_ticker asset.ticker)).valid = true) :
    ∃ r : Row, get_portfolio_summary u info [asset] = [r] ∧
      r.current_value = 0 ∧ r.profit_loss_pct = 0 := by
  obtain ⟨r, hsum, hrq, hra, hcv, hpl, hpct, hkrw, hplkrw⟩ :=
    valuation_row_formula u info asset hv
  refine ⟨r, hsum, ?_, ?_⟩
  · rw [hcv, hrq, hq, mul_zero, pyround_zero]
  · rw [hpct, hrq, hq, mul_zero]
    simp [pyround_zero]

/-- Witness for C3: the AAPL scenario with quantity 0. -/
theorem C3_witness :
    ∃ r : Row,
      get_portfolio_summary 1350 scenarioInfo
        [{ ticker := "AAPL", quantity := some 0, avg_price := some 150,
           asset_type := some "미국주식", note := some "" }] = [r] ∧
      r.current_value = 0 ∧ r.profit_loss_pct = 0 :=
  C3_zero_quantity_guard 1350 scenarioInfo
    { ticker := "AAPL", quantity := some 0, avg_price := some 150,
      asset_type := some "미국주식", note := some "" }
    rfl (by decide)

/-- A successful candidate ends the fallback chain at once, whatever
comes after it in the list. -/
theorem chain_stops_on_ok (call : String → Except String String)
    (m : String) (ms : List String) (le t : String) (hc : call m = .ok t) :
    generate_with_fallback call (m :: ms) le = .ok t := by
  simp [generate_with_fallback, hc]

/-- A failure the classifier does not recognise aborts the whole chain
immediately (the Python `raise`), whatever comes after it. -/
theorem chain_aborts (call : String → Except String String)
    (m : String) (ms : List String) (le e : String)
    (hc : call m = .error e) (hf : should_fallback e = false) :
    generate_with_fallback call (m :: ms) le = .error e := by
  simp [generate_with_fallback, hc, hf]

/-- When every candidate fails with the same fallback-eligible error,
the chain walks the whole list and ends with the deterministic
`RuntimeError` message carrying the last error. -/
theorem chain_exhausts (call : String → Except String String) (e : String)
    (hf : should_fallback e = true) (hc : ∀ m, call m = .error e) :
    ∀ (ms : List String) (le : String), ms ≠ [] →
      generate_with_fallback call ms le =
        .error ("모든 모델 할당량 초과 또는 사용 불가.\n마지막 오류: " ++ e) := by
  intro ms
  induction ms with
  | nil => intro le h; exact absurd rfl h
  | cons m rest ih =>
    intro le _
    simp only [generate_with_fallback, hc m, hf, if_true]
    cases rest with
    | nil => rfl
    | cons m2 r2 => exact ih _ (by simp)

/-- Claim C5 (amended): a candidate failure whose lowercased message
contains one of the source's seven signals (`"not found"`, `"404"`,
`"quota"`, `"429"`, `"resource_exhausted"`, `"invalid argument"`,
`"model"`) moves the chain to the next candidate; a failure matching
none of the signals aborts the chain immediately; a success returns at
once; and with candidates `[m1, m2]`, `m1` failing with a quota error
and `m2` succeeding, the result is `m2`'s text.  (The claim as frozen
names only the 404/not-found and quota/429/resource-exhausted triggers
as fallback-eligible — see the counterexample.) -/
theorem C5_fallback_chain :
    (∀ (call : String → Except String String) (m : String) (ms : List String)
        (le e : String), call m = .error e → should_fallback e = true →
        generate_with_fallback call (m :: ms) le =
          generate_with_fallback call ms e) ∧
    (∀ (call : String → Except String String) (m : String) (ms : List String)
        (le e : String), call m = .error e → should_fallback e = false →
        generate_with_fallback call (m :: ms) le = .error e) ∧
    (∀ (call : String → Except String String) (m : String) (ms : List String)
        (le t : String), call m = .ok t →
        generate_with_fallback call (m :: ms) le = .ok t) ∧
    (∀ (call : String → Except String String) (t : String),
        call "m1" = .error "quota exceeded" → call "m2" = .ok t →
        generate_with_fallback call ["m1", "m2"] "" = .ok t) := by
  refine ⟨?_, chain_aborts, chain_stops_on_ok, ?_⟩
  · intro call m ms le e hc hf
    simp [generate_with_fallback, hc, hf]
  · intro call t h1 h2
    have hf : should_fallback "quota exceeded" = true := by decide
    simp [generate_with_fallback, h1, h2, hf]

/-- Counterexample to C5 as stated: `"invalid argument"` matches none
of the claim's enumerated triggers, so per the claim it should abort the
chain, yet the source classifier accepts it and the chain proceeds to
`m2` and succeeds. -/
theorem C5_counterexample :
    spec_fallback_trigger "invalid argument" = false ∧
    should_fallback "invalid argument" = true ∧
    c5Call "m1" = .error "invalid argument" ∧
    generate_with_fallback c5Call ["m1", "m2"] "" = .ok "m2 text" :=
  ⟨by decide, by decide, rfl, rfl⟩

/-- Witness for C5 (amended): the concrete quota-then-success
scenario. -/
theorem C5_witness :
    c5QuotaCall "m1" = .error "quota exceeded" ∧
    c5QuotaCall "m2" = .ok "m2 text" ∧
    generate_with_fallback c5QuotaCall ["m1", "m2"] "" = .ok "m2 text" :=
  ⟨rfl, rfl, C5_fallback_chain.2.2.2 c5QuotaCall "m2 text" rfl rfl⟩

set_option maxRecDepth 16384 in
/-- Claim C6: `get_gemini_analysis` is total (the embedding returns a
string on every input — nothing is raised); an unconfigured key yields
the static not-configured message for every SDK behaviour (so no call is
made); when every candidate of both SDKs fails, the result is the
deterministic quota diagnostic on quota/429 errors, the invalid-key
diagnostic on credential errors, and the generic connection-failure
diagnostic otherwise (e.g. all models "not found"), and these
diagnostics are pairwise distinct. -/
theorem C6_never_raises_diagnostics :
    (∀ (ns os : Option (String → Except String String)),
      get_gemini_analysis "" ns os = GEMINI_NOT_CONFIGURED_MSG) ∧
    (∀ (ns os : Option (String → Except String String)),
      get_gemini_analysis "your_gemini_api_key" ns os =
        GEMINI_NOT_CONFIGURED_MSG) ∧
    (∀ (nc oc : String → Except String String),
      (∀ m, nc m = .error "429 RESOURCE_EXHAUSTED: quota exceeded") →
      (∀ m, oc m = .error "429 RESOURCE_EXHAUSTED: quota exceeded") →
      get_gemini_analysis "AIzaKey" (some nc) (some oc) = GEMINI_QUOTA_MSG) ∧
    (∀ (nc oc : String → Except String String),
      (∀ m, nc m = .error "API key not valid. Please pass a valid API key.") →
      (∀ m, oc m = .error "API key not valid. Please pass a valid API key.") →
      get_gemini_analysis "AIzaKey" (some nc) (some oc) =
        GEMINI_INVALID_KEY_MSG) ∧
    (∀ (nc oc : String → Except String String),
      (∀ m, nc m = .error "404 model not found") →
      (∀ m, oc m = .error "404 model not found") →
      get_gemini_analysis "AIzaKey" (some nc) (some oc) =
        GEMINI_GENERIC_FAIL_MSG
          ("모든 모델 할당량 초과 또는 사용 불가.\n마지막 오류: 404 model not found")
          ("모든 모델 할당량 초과 또는 사용 불가.\n마지막 오류: 404 model not found")) ∧
    (GEMINI_NOT_CONFIGURED_MSG ≠ GEMINI_QUOTA_MSG ∧
     GEMINI_NOT_CONFIGURED_MSG ≠ GEMINI_INVALID_KEY_MSG ∧
     GEMINI_QUOTA_MSG ≠ GEMINI_INVALID_KEY_MSG ∧
     GEMINI_QUOTA_MSG ≠ GEMINI_GENERIC_FAIL_MSG
       ("모든 모델 할당량 초과 또는 사용 불가.\n마지막 오류: 404 model not found")
       ("모든 모델 할당량 초과 또는 사용 불가.\n마지막 오류: 404 model not found") ∧
     GEMINI_INVALID_KEY_MSG ≠ GEMINI_GENERIC_FAIL_MSG
       ("모든 모델 할당량 초과 또는 사용 불가.\n마지막 오류: 404 model not found")
       ("모든 모델 할당량 초과 또는 사용 불가.\n마지막 오류: 404 model not found")) := by
  refine ⟨fun ns os => rfl, fun ns os => rfl, ?_, ?_, ?_, ?_⟩
  · intro nc oc hnc hoc
    have hn := chain_exhausts nc _ (by decide) hnc CANDIDATE_MODELS ""
      (by decide)
    have ho := chain_exhausts oc _ (by decide) hoc CANDIDATE_MODELS ""
      (by decide)
    simp only [get_gemini_analysis, hn, ho]
    decide
  · intro nc oc hnc hoc
    have hn : generate_with_fallback nc CANDIDATE_MODELS "" =
        .error "API key not valid. Please pass a valid API key." := by
      simp only [CANDIDATE_MODELS]
      exact chain_aborts nc _ _ _ _ (hnc _) (by decide)
    have ho : generate_with_fallback oc CANDIDATE_MODELS "" =
        .error "API key not valid. Please pass a valid API key." := by
      simp only [CANDIDATE_MODELS]
      exact chain_aborts oc _ _ _ _ (hoc _) (by decide)
    simp only [get_gemini_analysis, hn, ho]
    decide
  · intro nc oc hnc hoc
    have hn := chain_exhausts nc _ (by decide) hnc CANDIDATE_MODELS ""
      (by decide)
    have ho := chain_exhausts oc _ (by decide) hoc CANDIDATE_MODELS ""
      (by decide)
    simp only [get_gemini_analysis, hn, ho]
    decide
  · refine ⟨by decide, by decide, by decide, by decide, by decide⟩

/-- Witness for C6: concrete unconfigured and all-quota scenarios. -/
theorem C6_witness :
    get_gemini_analysis "" none none = GEMINI_NOT_CONFIGURED_MSG ∧
    get_gemini_analysis "AIzaKey"
      (some (constCall "429 RESOURCE_EXHAUSTED: quota exceeded"))
      (some (constCall "429 RESOURCE_EXHAUSTED: quota exceeded")) =
      GEMINI_QUOTA_MSG :=
  ⟨C6_never_raises_diagnostics.1 none none,
   C6_never_raises_diagnostics.2.2.1 _ _ (fun _ => rfl) (fun _ => rfl)⟩

/-- Claim C8: adding a holding performs a case-insensitive
duplicate-ticker check against the full current holding set before any
write, in both persistence variants: a duplicate add returns failure
with the duplicate message and leaves the store untouched (local
variant) / issues no Notion write (`writeIssued = false`); in
particular adding `"tsla"` over an existing `"TSLA"` fails. -/
theorem C8_duplicate_add_rejected :
    (∀ (db : DB) (ticker name : String) (q a : ℚ) (atype note now : String),
      db.assets.any (fun x => toUpperStr x.ticker =
        toUpperStr (normalize_crypto_ticker ticker)) = true →
      add_asset db ticker name q a atype note now =
        (db, false,
         "⚠️ " ++ toUpperStr (normalize_crypto_ticker ticker) ++
           " 이미 존재합니다.")) ∧
    (∀ (db : DB) (name : String) (q a : ℚ) (atype note now : String),
      db.assets.any (fun x => toUpperStr x.ticker = "TSLA") = true →
      add_asset db "tsla" name q a atype note now =
        (db, false, "⚠️ TSLA 이미 존재합니다.")) ∧
    (∀ (existing : List String) (resp : Except String Unit),
      existing.any (fun x => toUpperStr x = toUpperStr "tsla") = true →
      add_asset_notion true existing resp "tsla" =
        (false, "⚠️ tsla 이미 존재합니다.", false)) := by
  have hgen : ∀ (db : DB) (ticker name : String) (q a : ℚ)
      (atype note now : String),
      db.assets.any (fun x => toUpperStr x.ticker =
        toUpperStr (normalize_crypto_ticker ticker)) = true →
      add_asset db ticker name q a atype note now =
        (db, false,
         "⚠️ " ++ toUpperStr (normalize_crypto_ticker ticker) ++
           " 이미 존재합니다.") := by
    intro db ticker name q a atype note now h
    simp only [add_asset]
    rw [if_pos h]
  refine ⟨hgen, ?_, ?_⟩
  · intro db name q a atype note now h
    have h1 : toUpperStr (normalize_crypto_ticker "tsla") = "TSLA" := by decide
    have := hgen db "tsla" name q a atype note now (by rw [h1]; exact h)
    rw [h1] at this
    exact this
  · intro existing resp h
    simp only [add_asset_notion, Bool.not_true, Bool.false_eq_true,
      if_false, h, if_true]
    decide

/-- Witness for C8: adding `"tsla"` to the store holding `"TSLA"`. -/
theorem C8_witness :
    dbTSLA.assets.any (fun x => toUpperStr x.ticker = "TSLA") = true ∧
    add_asset dbTSLA "tsla" "Tesla" 1 200 "미국주식" "" "2025-01-02" =
      (dbTSLA, false, "⚠️ TSLA 이미 존재합니다.") :=
  ⟨by decide,
   C8_duplicate_add_rejected.2.1 dbTSLA "Tesla" 1 200 "미국주식" ""
     "2025-01-02" (by decide)⟩

/-- Counterexample to C9 as stated: with an existing scrap whose
`link` is the empty string, saving a new scrap with that identical
(empty) link is **not** rejected — `add_scrap` returns `True` and the
store changes, because the source guards the dedup with `if link and
...`. -/
theorem C9_counterexample :
    dbEmptyLink.scraps.any (fun s => s.link = "") = true ∧
    (add_scrap dbEmptyLink "newtitle" "" "sum" "AAPL" "뉴스" ""
      "cccccccccccc" "2025-02-02T00:00:00").2 = true ∧
    (add_scrap dbEmptyLink "newtitle" "" "sum" "AAPL" "뉴스" ""
      "cccccccccccc" "2025-02-02T00:00:00").1 ≠ dbEmptyLink :=
  ⟨by decide, by decide, by decide⟩

/-- Claim C9 (amended): the local-JSON `add_scrap` rejects a save
(returns `False`, store unchanged) when the new scrap's link is
non-empty and an existing record has the identical link; the Notion
variant `add_scrap_notion` consults no existing records and issues the
write unconditionally whenever the scrap DB is configured. -/
theorem C9_scrap_dedup_local_only :
    (∀ (db : DB) (title link summary ticker category src scrap_id now : String),
      link ≠ "" → db.scraps.any (fun s => s.link = link) = true →
      add_scrap db title link summary ticker category src scrap_id now =
        (db, false)) ∧
    (∀ (resp : Except String Unit)
        (title link summary ticker category src : String),
      (add_scrap_notion true resp title link summary ticker category
        src).2.2 = true) := by
  constructor
  · intro db title link summary ticker category src scrap_id now hl hd
    simp only [add_scrap]
    rw [if_pos]
    simp only [Bool.and_eq_true, decide_eq_true_eq]
    exact ⟨by simpa using hl, hd⟩
  · intro resp title link summary ticker category src
    cases resp <;> rfl

/-- Witness for C9 (amended): a duplicate non-empty link is rejected
locally while the Notion variant still writes. -/
theorem C9_witness :
    dbLinked.scraps.any (fun s => s.link = "https://x.com/1") = true ∧
    add_scrap dbLinked "t2" "https://x.com/1" "s" "TSLA" "뉴스" ""
      "dddddddddddd" "2025-02-02T00:00:00" = (dbLinked, false) ∧
    (add_scrap_notion true (.ok ()) "t" "https://x.com/1" "s" "TSLA"
      "뉴스" "").2.2 = true :=
  ⟨by decide,
   C9_scrap_dedup_local_only.1 dbLinked "t2" "https://x.com/1" "s" "TSLA"
     "뉴스" "" "dddddddddddd" "2025-02-02T00:00:00" (by decide) (by decide),
   C9_scrap_dedup_local_only.2 (.ok ()) "t" "https://x.com/1" "s" "TSLA"
     "뉴스" ""⟩

/-- Claim C10: the local-JSON store keeps tickers canonical —
`add_asset` either leaves the store unchanged (duplicate) or appends
exactly `normalize_crypto_ticker(ticker).upper()` and preserves the
all-canonical invariant; `update_asset` never changes any stored ticker
and `remove_asset` only drops existing records; consequently, on an
all-uppercase store, `update_asset` with no case-insensitive match
returns the store unchanged (the Python function returns `None`,
reporting no error). -/
theorem C10_local_store_ticker_invariants :
    (∀ (db : DB) (ticker name : String) (q a : ℚ) (atype note now : String),
      TickersCanonical db →
      TickersCanonical (add_asset db ticker name q a atype note now).1) ∧
    (∀ (db : DB) (ticker name : String) (q a : ℚ) (atype note now : String),
      (add_asset db ticker name q a atype note now).1 = db ∨
      (add_asset db ticker name q a atype note now).1.assets =
        db.assets ++
          [{ ticker := toUpperStr (normalize_crypto_ticker ticker),
             name := name, quantity := q, avg_price := a,
             asset_type := atype, note := note, added_at := now,
             updated_at := none }]) ∧
    (∀ (db : DB) (ticker : String) (q a : ℚ) (now : String),
      (update_asset db ticker q a now).assets.map Asset.ticker =
        db.assets.map Asset.ticker) ∧
    (∀ (db : DB) (ticker : String) (x : Asset),
      x ∈ (remove_asset db ticker).assets → x ∈ db.assets) ∧
    (∀ (db : DB) (ticker : String) (q a : ℚ) (now : String),
      (∀ x ∈ db.assets, toUpperStr x.ticker = x.ticker) →
      (∀ x ∈ db.assets, toUpperStr x.ticker ≠ toUpperStr ticker) →
      update_asset db ticker q a now = db) := by
  refine ⟨?_, ?_, ?_, ?_, ?_⟩
  · intro db ticker name q a atype note now h
    by_cases hdup : (db.assets.any (fun x => toUpperStr x.ticker =
        toUpperStr (normalize_crypto_ticker ticker))) = true
    · simp only [add_asset, hdup, if_true]
      exact h
    · simp only [add_asset, hdup, Bool.false_eq_true, if_false]
      intro x hx
      rcases List.mem_append.mp hx with hm | hm
      · exact h x hm
      · rcases List.mem_singleton.mp hm with rfl
        exact ⟨(normalize_upper_canonical ticker).1,
               (normalize_upper_canonical ticker).2⟩
  · intro db ticker name q a atype note now
    by_cases hdup : (db.assets.any (fun x => toUpperStr x.ticker =
        toUpperStr (normalize_crypto_ticker ticker))) = true
    · left
      simp only [add_asset, hdup, if_true]
    · right
      simp only [add_asset, hdup, Bool.false_eq_true, if_false]
  · intro db ticker q a now
    simp only [update_asset, List.map_map]
    refine List.map_congr_left ?_
    intro x _
    by_cases hx : toUpperStr x.ticker = toUpperStr ticker
    · simp [hx]
    · simp [hx]
  · intro db ticker x hx
    exact (List.mem_filter.mp hx).1
  · intro db ticker q a now hup hnm
    have : db.assets.map (fun x =>
        if toUpperStr x.ticker = toUpperStr ticker then
          { x with quantity := q, avg_price := a, updated_at := some now }
        else x) = db.assets := by
      have h1 : db.assets.map (fun x =>
          if toUpperStr x.ticker = toUpperStr ticker then
            { x with quantity := q, avg_price := a, updated_at := some now }
          else x) = db.assets.map id :=
        List.map_congr_left (fun x hx => by rw [if_neg (hnm x hx)]; rfl)
      rw [h1, List.map_id]
    simp only [update_asset, this]

/-- Witness for C10: a no-match update leaves the TSLA store
unchanged, and an add preserves canonicity. -/
theorem C10_witness :
    (∀ x ∈ dbTSLA.assets, toUpperStr x.ticker = x.ticker) ∧
    (∀ x ∈ dbTSLA.assets, toUpperStr x.ticker ≠ toUpperStr "AAPL") ∧
    update_asset dbTSLA "AAPL" 5 100 "2025-03-03" = dbTSLA ∧
    TickersCanonical
      (add_asset dbTSLA "eth" "Ether" 1 100 "암호화폐" "" "2025-03-03").1 :=
  ⟨by decide, by decide,
   C10_local_store_ticker_invariants.2.2.2.2 dbTSLA "AAPL" 5 100 "2025-03-03"
     (by decide) (by decide),
   C10_local_store_ticker_invariants.1 dbTSLA "eth" "Ether" 1 100 "암호화폐"
     "" "2025-03-03"
     (fun x hx => by rcases List.mem_singleton.mp hx with rfl
                     exact ⟨by decide, by decide⟩)⟩

/-- Witness for C2: the general valuation formula applied to the
concrete AAPL scenario. -/
theorem C2_witness :
    (scenarioInfo (normalize_crypto_ticker aaplAsset.ticker)).valid = true ∧
    (∃ r : Row, get_portfolio_summary 1350 scenarioInfo [aaplAsset] = [r] ∧
      r.quantity = aaplAsset.quantity.getD 0 ∧
      r.avg_price = aaplAsset.avg_price.getD
        (scenarioInfo (normalize_crypto_ticker aaplAsset.ticker)).current_price ∧
      r.current_value = pyround
        ((scenarioInfo (normalize_crypto_ticker aaplAsset.ticker)).current_price *
          r.quantity) 2 ∧
      r.profit_loss = pyround
        ((scenarioInfo (normalize_crypto_ticker aaplAsset.ticker)).current_price *
            r.quantity - r.avg_price * r.quantity) 2 ∧
      r.profit_loss_pct = pyround
        (if r.avg_price * r.quantity ≠ 0 then
          ((scenarioInfo (normalize_crypto_ticker aaplAsset.ticker)).current_price *
              r.quantity - r.avg_price * r.quantity) /
            (r.avg_price * r.quantity) * 100
         else 0) 2 ∧
      r.current_value_krw = pyround
        ((scenarioInfo (normalize_crypto_ticker aaplAsset.ticker)).current_price *
            r.quantity *
          (if (scenarioInfo (normalize_crypto_ticker aaplAsset.ticker)).currency = "USD"
           then (1350 : ℚ) else 1)) 0 ∧
      r.profit_loss_krw = pyround
        (((scenarioInfo (normalize_crypto_ticker aaplAsset.ticker)).current_price *
              r.quantity - r.avg_price * r.quantity) *
          (if (scenarioInfo (normalize_crypto_ticker aaplAsset.ticker)).currency = "USD"
           then (1350 : ℚ) else 1)) 0) :=
  ⟨by decide, C2_valuation_arithmetic.1 1350 scenarioInfo aaplAsset (by decide)⟩
